import Mathlib

/-!
Shallow embedding of the OTP gatekeeper and account quota tracker of the
urban-backend repository.

The OTP side embeds the module in src/unnamed/part_006: the in-memory
stores `otpStore` and `rateLimitStore` become functions from phone number
to an optional value, timestamps are naturals (milliseconds, as produced
by the Date.now call), and the Twilio dispatch is abstracted as a boolean
outcome passed in, since it is an external collaborator.  The quota side
embeds the user-schema methods of src/unnamed/part_002 and the
controller logic of src/Controllers/propertyController.js; a calendar
date is reduced to the (month, year) pair that the code reads off it.
-/

namespace UrbanBackend

/-! ## Configuration constants (src/unnamed/part_006, lines 22-27) -/

def OTP_EXPIRY_MS : Nat := 10 * 60 * 1000

def MAX_OTP_ATTEMPTS : Nat := 3

def RATE_LIMIT_MAX_REQUESTS : Nat := 5

def RATE_LIMIT_WINDOW_MS : Nat := 60 * 60 * 1000

def RESEND_COOLDOWN_MS : Nat := 60 * 1000

/-! ## OTP data model -/

/-- One entry of the in-memory `otpStore`: the object stored by `sendOTP`
(part_006 lines 127-132). -/
structure OTPRecord where
  code : String
  createdAt : Nat
  expiresAt : Nat
  attempts : Nat
deriving DecidableEq, Repr

/-- The `otpStore` map: phone number to optional OTP record. -/
def OtpStore : Type := String → Option OTPRecord

/-- The `rateLimitStore` map: phone number to optional timestamp list.
`none` models a key absent from the Map, `some []` a key bound to an
empty array; the two are distinct states of a JavaScript Map. -/
def RateStore : Type := String → Option (List Nat)

/-- Map.set on the OTP store. -/
def OtpStore.set (s : OtpStore) (p : String) (r : OTPRecord) : OtpStore :=
  fun q => if q = p then some r else s q

/-- Map.delete on the OTP store. -/
def OtpStore.del (s : OtpStore) (p : String) : OtpStore :=
  fun q => if q = p then none else s q

/-- Map.set on the rate-limit store. -/
def RateStore.set (s : RateStore) (p : String) (ts : List Nat) : RateStore :=
  fun q => if q = p then some ts else s q

/-- Map.delete on the rate-limit store. -/
def RateStore.del (s : RateStore) (p : String) : RateStore :=
  fun q => if q = p then none else s q

/-- Embeds `rateLimitStore.get(phoneNumber) || []` (part_006 lines 44 and 135). -/
def RateStore.getOr (s : RateStore) (p : String) : List Nat :=
  (s p).getD []

/-- Math.min over a nonempty timestamp array (part_006 line 54); on the
empty list the JavaScript call yields Infinity, which the code never
reaches because the list has at least RATE_LIMIT_MAX_REQUESTS elements
at the only call site. -/
def listMin : List Nat → Nat
  | [] => 0
  | x :: xs => xs.foldl Nat.min x

/-- The timestamps of `requests` still inside the sliding window at
`now`: the filter of part_006 lines 47-49 (and again lines 247-249). -/
def recentOf (requests : List Nat) (now : Nat) : List Nat :=
  requests.filter (fun timestamp => now - timestamp < RATE_LIMIT_WINDOW_MS)

/-- Result of `checkRateLimit`, together with the store it leaves behind
(the JavaScript function mutates `rateLimitStore` in place). -/
structure RateCheck where
  allowed : Bool
  remainingTime : Nat
  store : RateStore

/-- Embeds `checkRateLimit` (part_006 lines 42-62).  `Math.ceil(x / 1000)` on a
positive integer x is `(x + 999) / 1000` in natural division; x is
positive here since every kept timestamp satisfies now - t < window. -/
def checkRateLimit (store : RateStore) (phoneNumber : String) (now : Nat) : RateCheck :=
  let requests := store.getOr phoneNumber
  let recentRequests := recentOf requests now
  let store1 := store.set phoneNumber recentRequests
  if RATE_LIMIT_MAX_REQUESTS ≤ recentRequests.length then
    let oldestRequest := listMin recentRequests
    let remainingTime := (RATE_LIMIT_WINDOW_MS - (now - oldestRequest) + 999) / 1000
    ⟨false, remainingTime, store1⟩
  else
    ⟨true, 0, store1⟩

/-- Result of `checkResendCooldown` (the function reads but never writes
the OTP store). -/
structure CooldownCheck where
  allowed : Bool
  remainingTime : Nat
deriving DecidableEq, Repr

/-- Embeds `checkResendCooldown` (part_006 lines 69-84). -/
def checkResendCooldown (store : OtpStore) (phoneNumber : String) (now : Nat) : CooldownCheck :=
  match store phoneNumber with
  | none => ⟨true, 0⟩
  | some otpData =>
    let timeSinceLastSend := now - otpData.createdAt
    if timeSinceLastSend < RESEND_COOLDOWN_MS then
      ⟨false, (RESEND_COOLDOWN_MS - timeSinceLastSend + 999) / 1000⟩
    else
      ⟨true, 0⟩

/-- The distinct outcomes of `sendOTP`, read off the return objects of
part_006 lines 94-168: the four early-return failures, the success
object, and the catch-branch failure after the Twilio call throws. -/
inductive SendResult where
  | invalidFormat
  | rateLimited (remainingTime : Nat)
  | cooldownActive (remainingTime : Nat)
  | sent (expiresIn : Nat)
  | dispatchFailed
deriving DecidableEq, Repr

/-- The `sendOTP` return value together with both stores it leaves behind. -/
structure SendOutcome where
  result : SendResult
  otp : OtpStore
  rate : RateStore

/-- The test `phoneNumber.startsWith("+91")` of part_006 line 94,
written over the character list so that it evaluates by reduction: the
string starts with the three characters +, 9, 1. -/
def startsWithPlus91 (phone : String) : Bool :=
  match phone.data with
  | '+' :: '9' :: '1' :: _ => true
  | _ => false

/-- Embeds `sendOTP` (part_006 lines 91-169).  The generated random code and the
outcome of the external Twilio call are parameters (`otp`, `dispatchOk`):
the code stores the record and pushes the timestamp before awaiting the
dispatch, so a throwing dispatch lands in the catch with both stores
already updated. -/
def sendOTP (ostore : OtpStore) (rstore : RateStore) (phoneNumber : String)
    (now : Nat) (otp : String) (dispatchOk : Bool) : SendOutcome :=
  if startsWithPlus91 phoneNumber = false ∨ phoneNumber.length ≠ 13 then
    ⟨.invalidFormat, ostore, rstore⟩
  else
    let rateLimit := checkRateLimit rstore phoneNumber now
    if rateLimit.allowed = false then
      ⟨.rateLimited rateLimit.remainingTime, ostore, rateLimit.store⟩
    else
      let cooldown := checkResendCooldown ostore phoneNumber now
      if cooldown.allowed = false then
        ⟨.cooldownActive cooldown.remainingTime, ostore, rateLimit.store⟩
      else
        let record : OTPRecord := ⟨otp, now, now + OTP_EXPIRY_MS, 0⟩
        let ostore1 := ostore.set phoneNumber record
        let requests := rateLimit.store.getOr phoneNumber
        let rstore1 := rateLimit.store.set phoneNumber (requests ++ [now])
        if dispatchOk then
          ⟨.sent (OTP_EXPIRY_MS / 1000), ostore1, rstore1⟩
        else
          ⟨.dispatchFailed, ostore1, rstore1⟩

/-- The distinct outcomes of `verifyOTP`, read off the return objects of
part_006 lines 177-228. -/
inductive VerifyResult where
  | notFound
  | expired
  | attemptsExceeded
  | mismatch (remainingAttempts : Nat)
  | verified
deriving DecidableEq, Repr

/-- Embeds `verifyOTP` (part_006 lines 177-228), returning the result and the
OTP store it leaves behind. -/
def verifyOTP (store : OtpStore) (phoneNumber code : String) (now : Nat) :
    VerifyResult × OtpStore :=
  match store phoneNumber with
  | none => (.notFound, store)
  | some otpData =>
    if otpData.expiresAt < now then
      (.expired, store.del phoneNumber)
    else if MAX_OTP_ATTEMPTS ≤ otpData.attempts then
      (.attemptsExceeded, store.del phoneNumber)
    else if otpData.code = code then
      (.verified, store.del phoneNumber)
    else
      let updated : OTPRecord := { otpData with attempts := otpData.attempts + 1 }
      (.mismatch (MAX_OTP_ATTEMPTS - updated.attempts), store.set phoneNumber updated)

/-- The OTP half of `cleanupExpiredOTPs` (part_006 lines 238-243): each
stored record past expiry is deleted.  The Map iteration acts on every
key exactly once, so it is the pointwise transformation below. -/
def cleanupOtpStore (store : OtpStore) (now : Nat) : OtpStore :=
  fun p =>
    match store p with
    | none => none
    | some otpData => if otpData.expiresAt < now then none else some otpData

/-- The rate-limit half of `cleanupExpiredOTPs` (part_006 lines 246-256):
each bound timestamp list is pruned to the window, and the key is deleted
when the pruned list is empty. -/
def cleanupRateStore (store : RateStore) (now : Nat) : RateStore :=
  fun p =>
    match store p with
    | none => none
    | some requests =>
      let recentRequests := recentOf requests now
      if recentRequests = [] then none else some recentRequests

/-- The phone format as the specification words it: the +91 prefix
followed by exactly 10 digits (hence total length 13).  This is the
specification-side definition, to be compared with the format test that
`sendOTP` actually performs. -/
def specPhoneFormat (phone : String) : Bool :=
  startsWithPlus91 phone && phone.length = 13 && (phone.data.drop 3).all (fun c => c.isDigit)

/-! ## Quota data model (src/unnamed/part_002, src/Controllers/propertyController.js) -/

/-- The (month, year) pair that the quota code reads off a Date via
getMonth and getFullYear (part_002 lines 166-190); nothing else of the
Date value is consulted by the reset logic. -/
structure MonthDate where
  month : Nat
  year : Nat
deriving DecidableEq, Repr

/-- The value `new Date(0)`: the epoch, whose (getMonth, getFullYear) pair is
(0, 1970) in UTC. -/
def epochDate : MonthDate := ⟨0, 1970⟩

/-- The user fields the quota logic reads and writes (part_002 schema):
role, account tier, the two monthly counters and their reset dates.  A
reset date may be absent, matching the `|| new Date(0)` fallbacks. -/
structure User where
  role : String
  accountType : String
  contactViewsUsed : Nat
  contactViewsResetDate : Option MonthDate
  propertiesListedThisMonth : Nat
  propertiesListedResetDate : Option MonthDate
deriving DecidableEq, Repr

/-- The tier limit table returned by `getAccountLimits` (part_002
lines 158-163). -/
structure AccountLimits where
  contactViews : Nat
  propertyListings : Nat
deriving DecidableEq, Repr

/-- Embeds `getAccountLimits` (part_002 lines 158-163). -/
def getAccountLimits (u : User) : AccountLimits :=
  if u.accountType = "premium" then ⟨10, 20⟩ else ⟨1, 2⟩

/-- Embeds `upgradeToHost` (part_002 lines 149-155): sets the role to host and
saves when it was not host already. -/
def upgradeToHost (u : User) : User :=
  if u.role ≠ "host" then { u with role := "host" } else u

/-- Embeds `resetMonthlyCountersIfNeeded` (part_002 lines 166-190): each counter
is zeroed, and its reset date set to now, exactly when the current
(month, year) differs from the stored reset date of that counter. -/
def resetMonthlyCountersIfNeeded (u : User) (now : MonthDate) : User :=
  let contactReset := u.contactViewsResetDate.getD epochDate
  let u1 :=
    if now.month ≠ contactReset.month ∨ now.year ≠ contactReset.year then
      { u with contactViewsUsed := 0, contactViewsResetDate := some now }
    else u
  let listingReset := u1.propertiesListedResetDate.getD epochDate
  if now.month ≠ listingReset.month ∨ now.year ≠ listingReset.year then
    { u1 with propertiesListedThisMonth := 0, propertiesListedResetDate := some now }
  else u1

/-- Outcome of the contact-view gate of `getOwnerContact`
(propertyController.js lines 360-394): the 403 limit response carries
the limit and the used counter; the success response carries remaining,
limit and the (already incremented) used counter. -/
inductive ContactResult where
  | limitReached (limit used : Nat)
  | consumed (remaining limit used : Nat)
deriving DecidableEq, Repr

/-- The check-and-consume step of `getOwnerContact`
(propertyController.js lines 360-394), after the monthly reset has run:
computes remaining = limit - used, fails without mutation when it is
not positive, otherwise increments the counter and reports the response
fields.  In natural-number subtraction, remaining ≤ 0 holds exactly when
limit ≤ used, as in the JavaScript comparison. -/
def contactCheckAndConsume (u : User) : ContactResult × User :=
  let limits := getAccountLimits u
  let remaining := limits.contactViews - u.contactViewsUsed
  if remaining ≤ 0 then
    (.limitReached limits.contactViews u.contactViewsUsed, u)
  else
    let u1 := { u with contactViewsUsed := u.contactViewsUsed + 1 }
    (.consumed (limits.contactViews - u1.contactViewsUsed) limits.contactViews
      u1.contactViewsUsed, u1)

/-- The quota-relevant part of `getOwnerContact` (propertyController.js
lines 341-394): reset the monthly counters, then gate and consume one
contact view. -/
def getOwnerContact (u : User) (now : MonthDate) : ContactResult × User :=
  contactCheckAndConsume (resetMonthlyCountersIfNeeded u now)

/-- The request fields `createProperty` validates: rent type, rent
amount, and the coordinate pair.  `none` models an absent field; the
JavaScript falsiness tests on numbers additionally treat 0 as absent,
which the embedding reproduces below. -/
structure CreateRequest where
  rentType : Option String
  rentAmount : Option Int
  coordinates : Option (Int × Int)
deriving DecidableEq, Repr

/-- The distinct exits of `createProperty` (propertyController.js
lines 106-186). `createFailed` stands for the external Property.create
call throwing. -/
inductive CreateResult where
  | listingLimitReached (limit : Nat)
  | invalidRentType
  | invalidRentAmount
  | missingCoordinates
  | latitudeOutOfRange
  | longitudeOutOfRange
  | createFailed
  | created
deriving DecidableEq, Repr

/-- Embeds `createProperty` (propertyController.js lines 106-186): monthly
reset, listing-limit gate, guest-to-host upgrade, request validation,
document creation (outcome abstracted as `createOk`), and only then the
counter increment.  The JavaScript test `!coordinates.latitude` is true
when the latitude is 0 (falsy), likewise for longitude and a rent amount
of 0; rent amounts below 500 include 0, so the 0 case folds into the
comparison. -/
def createProperty (u : User) (now : MonthDate) (req : CreateRequest)
    (createOk : Bool) : CreateResult × User :=
  let u1 := resetMonthlyCountersIfNeeded u now
  let limits := getAccountLimits u1
  if limits.propertyListings ≤ u1.propertiesListedThisMonth then
    (.listingLimitReached limits.propertyListings, u1)
  else
    let u2 := if u1.role = "guest" then upgradeToHost u1 else u1
    match req.rentType with
    | none => (.invalidRentType, u2)
    | some rentType =>
      if rentType ≠ "per_person" ∧ rentType ≠ "entire_property" then
        (.invalidRentType, u2)
      else
        match req.rentAmount with
        | none => (.invalidRentAmount, u2)
        | some rentAmount =>
          if rentAmount < 500 then (.invalidRentAmount, u2)
          else
            match req.coordinates with
            | none => (.missingCoordinates, u2)
            | some (latitude, longitude) =>
              if latitude = 0 ∨ longitude = 0 then (.missingCoordinates, u2)
              else if latitude < -90 ∨ 90 < latitude then (.latitudeOutOfRange, u2)
              else if longitude < -180 ∨ 180 < longitude then (.longitudeOutOfRange, u2)
              else if createOk then
                (.created,
                 { u2 with propertiesListedThisMonth := u2.propertiesListedThisMonth + 1 })
              else (.createFailed, u2)

/-! ## Store helper lemmas -/

@[simp]
theorem otpStore_get_set (s : OtpStore) (p : String) (r : OTPRecord) :
    (s.set p r) p = some r := by
  simp [OtpStore.set]

@[simp]
theorem otpStore_get_del (s : OtpStore) (p : String) : (s.del p) p = none := by
  simp [OtpStore.del]

@[simp]
theorem rateStore_get_set (s : RateStore) (p : String) (ts : List Nat) :
    (s.set p ts) p = some ts := by
  simp [RateStore.set]

/-! ## verifyOTP case lemmas -/

theorem verifyOTP_none (store : OtpStore) (phone code : String) (now : Nat)
    (h : store phone = none) :
    verifyOTP store phone code now = (.notFound, store) := by
  unfold verifyOTP
  rw [h]

theorem verifyOTP_mismatch_eq (store : OtpStore) (phone code : String) (now : Nat)
    (r : OTPRecord) (hrec : store phone = some r) (hexp : ¬ r.expiresAt < now)
    (hatt : r.attempts < MAX_OTP_ATTEMPTS) (hcode : r.code ≠ code) :
    verifyOTP store phone code now =
      (.mismatch (MAX_OTP_ATTEMPTS - (r.attempts + 1)),
        store.set phone { r with attempts := r.attempts + 1 }) := by
  unfold verifyOTP
  rw [hrec]
  simp only [if_neg hexp, if_neg (Nat.not_le.mpr hatt), if_neg hcode]

theorem verifyOTP_verified_eq (store : OtpStore) (phone code : String) (now : Nat)
    (r : OTPRecord) (hrec : store phone = some r) (hexp : ¬ r.expiresAt < now)
    (hatt : r.attempts < MAX_OTP_ATTEMPTS) (hcode : r.code = code) :
    verifyOTP store phone code now = (.verified, store.del phone) := by
  unfold verifyOTP
  rw [hrec]
  simp only [if_neg hexp, if_neg (Nat.not_le.mpr hatt), if_pos hcode]

theorem verifyOTP_expired_eq (store : OtpStore) (phone code : String) (now : Nat)
    (r : OTPRecord) (hrec : store phone = some r) (hexp : r.expiresAt < now) :
    verifyOTP store phone code now = (.expired, store.del phone) := by
  unfold verifyOTP
  rw [hrec]
  simp only [if_pos hexp]

theorem verifyOTP_exceeded_eq (store : OtpStore) (phone code : String) (now : Nat)
    (r : OTPRecord) (hrec : store phone = some r) (hexp : ¬ r.expiresAt < now)
    (hatt : MAX_OTP_ATTEMPTS ≤ r.attempts) :
    verifyOTP store phone code now = (.attemptsExceeded, store.del phone) := by
  unfold verifyOTP
  rw [hrec]
  simp only [if_neg hexp, if_pos hatt]

/-! ## Iterated verification calls (for the attempt-counting scenario) -/

/-- The OTP store left behind by n consecutive `verifyOTP` calls with the
same phone, candidate code and clock. -/
def storeAfterCalls (store : OtpStore) (phone code : String) (now : Nat) : Nat → OtpStore
  | 0 => store
  | n + 1 => (verifyOTP (storeAfterCalls store phone code now n) phone code now).2

/-- The result of the (n+1)-st of those consecutive `verifyOTP` calls. -/
def callResult (store : OtpStore) (phone code : String) (now : Nat) (n : Nat) : VerifyResult :=
  (verifyOTP (storeAfterCalls store phone code now n) phone code now).1

/-! ## checkRateLimit, checkResendCooldown and sendOTP case lemmas -/

theorem checkRateLimit_blocked (store : RateStore) (phone : String) (now : Nat)
    (h : RATE_LIMIT_MAX_REQUESTS ≤ (recentOf (store.getOr phone) now).length) :
    checkRateLimit store phone now =
      ⟨false,
       (RATE_LIMIT_WINDOW_MS - (now - listMin (recentOf (store.getOr phone) now)) + 999) / 1000,
       store.set phone (recentOf (store.getOr phone) now)⟩ := by
  simp only [checkRateLimit]
  rw [if_pos h]

theorem checkRateLimit_allowed (store : RateStore) (phone : String) (now : Nat)
    (h : (recentOf (store.getOr phone) now).length < RATE_LIMIT_MAX_REQUESTS) :
    checkRateLimit store phone now =
      ⟨true, 0, store.set phone (recentOf (store.getOr phone) now)⟩ := by
  simp only [checkRateLimit]
  rw [if_neg (Nat.not_le.mpr h)]

theorem checkResendCooldown_blocked (store : OtpStore) (phone : String) (now : Nat)
    (r : OTPRecord) (hrec : store phone = some r)
    (h : now - r.createdAt < RESEND_COOLDOWN_MS) :
    checkResendCooldown store phone now =
      ⟨false, (RESEND_COOLDOWN_MS - (now - r.createdAt) + 999) / 1000⟩ := by
  unfold checkResendCooldown
  rw [hrec]
  simp only [if_pos h]

theorem checkResendCooldown_free (store : OtpStore) (phone : String) (now : Nat)
    (r : OTPRecord) (hrec : store phone = some r)
    (h : RESEND_COOLDOWN_MS ≤ now - r.createdAt) :
    checkResendCooldown store phone now = ⟨true, 0⟩ := by
  unfold checkResendCooldown
  rw [hrec]
  simp only [if_neg (Nat.not_lt.mpr h)]

theorem sendOTP_invalidFormat_eq (ostore : OtpStore) (rstore : RateStore)
    (phone : String) (now : Nat) (otp : String) (dispatchOk : Bool)
    (h : startsWithPlus91 phone = false ∨ phone.length ≠ 13) :
    sendOTP ostore rstore phone now otp dispatchOk = ⟨.invalidFormat, ostore, rstore⟩ := by
  simp only [sendOTP]
  rw [if_pos h]

theorem sendOTP_rateLimited_eq (ostore : OtpStore) (rstore : RateStore)
    (phone : String) (now : Nat) (otp : String) (dispatchOk : Bool)
    (hfmt : startsWithPlus91 phone = true ∧ phone.length = 13)
    (hlen : RATE_LIMIT_MAX_REQUESTS ≤ (recentOf (rstore.getOr phone) now).length) :
    sendOTP ostore rstore phone now otp dispatchOk =
      ⟨.rateLimited
        ((RATE_LIMIT_WINDOW_MS - (now - listMin (recentOf (rstore.getOr phone) now)) + 999) / 1000),
       ostore, rstore.set phone (recentOf (rstore.getOr phone) now)⟩ := by
  have hc : ¬(startsWithPlus91 phone = false ∨ phone.length ≠ 13) := by
    simp [hfmt.1, hfmt.2]
  simp [sendOTP, if_neg hc, checkRateLimit_blocked rstore phone now hlen]

theorem sendOTP_cooldown_eq (ostore : OtpStore) (rstore : RateStore)
    (phone : String) (now : Nat) (otp : String) (dispatchOk : Bool) (r : OTPRecord)
    (hfmt : startsWithPlus91 phone = true ∧ phone.length = 13)
    (hlen : (recentOf (rstore.getOr phone) now).length < RATE_LIMIT_MAX_REQUESTS)
    (hrec : ostore phone = some r)
    (hcd : now - r.createdAt < RESEND_COOLDOWN_MS) :
    sendOTP ostore rstore phone now otp dispatchOk =
      ⟨.cooldownActive ((RESEND_COOLDOWN_MS - (now - r.createdAt) + 999) / 1000),
       ostore, rstore.set phone (recentOf (rstore.getOr phone) now)⟩ := by
  have hc : ¬(startsWithPlus91 phone = false ∨ phone.length ≠ 13) := by
    simp [hfmt.1, hfmt.2]
  simp [sendOTP, if_neg hc, checkRateLimit_allowed rstore phone now hlen,
    checkResendCooldown_blocked ostore phone now r hrec hcd]

theorem sendOTP_commit_eq (ostore : OtpStore) (rstore : RateStore)
    (phone : String) (now : Nat) (otp : String) (dispatchOk : Bool)
    (hfmt : startsWithPlus91 phone = true ∧ phone.length = 13)
    (hlen : (recentOf (rstore.getOr phone) now).length < RATE_LIMIT_MAX_REQUESTS)
    (hcd : (checkResendCooldown ostore phone now).allowed = true) :
    sendOTP ostore rstore phone now otp dispatchOk =
      ⟨if dispatchOk then .sent (OTP_EXPIRY_MS / 1000) else .dispatchFailed,
       ostore.set phone ⟨otp, now, now + OTP_EXPIRY_MS, 0⟩,
       (rstore.set phone (recentOf (rstore.getOr phone) now)).set phone
         (recentOf (rstore.getOr phone) now ++ [now])⟩ := by
  have hc : ¬(startsWithPlus91 phone = false ∨ phone.length ≠ 13) := by
    simp [hfmt.1, hfmt.2]
  cases dispatchOk <;>
    simp [sendOTP, if_neg hc, checkRateLimit_allowed rstore phone now hlen, hcd,
      RateStore.getOr, rateStore_get_set]

/-! ## Claim theorems -/

/-- Claim C1: for a live, unexpired record with attempts below the
maximum, a wrong candidate code makes `verifyOTP` increment the stored
attempts, keep the record, and return the mismatch result carrying the
remaining attempts; starting from a fresh record (attempts = 0), three
consecutive wrong calls return remaining attempts 2, 1, 0, and the
fourth call returns the attempts-exceeded result and deletes the
record. -/
theorem claim1_verify_mismatch_counting (store : OtpStore) (phone code : String)
    (now : Nat) (r : OTPRecord) (hrec : store phone = some r)
    (hexp : ¬ r.expiresAt < now) (hatt : r.attempts < MAX_OTP_ATTEMPTS)
    (hcode : r.code ≠ code) :
    verifyOTP store phone code now =
      (.mismatch (MAX_OTP_ATTEMPTS - (r.attempts + 1)),
        store.set phone { r with attempts := r.attempts + 1 }) ∧
    (verifyOTP store phone code now).2 phone = some { r with attempts := r.attempts + 1 } ∧
    (r.attempts = 0 →
      callResult store phone code now 0 = .mismatch 2 ∧
      callResult store phone code now 1 = .mismatch 1 ∧
      callResult store phone code now 2 = .mismatch 0 ∧
      callResult store phone code now 3 = .attemptsExceeded ∧
      storeAfterCalls store phone code now 4 phone = none) := by
  have step := verifyOTP_mismatch_eq store phone code now r hrec hexp hatt hcode
  refine ⟨step, by rw [step]; exact otpStore_get_set store phone _, ?_⟩
  intro h0
  have s1 : storeAfterCalls store phone code now 1 =
      store.set phone { r with attempts := 1 } := by
    show (verifyOTP store phone code now).2 = _
    rw [step, h0]
  have step1 := verifyOTP_mismatch_eq (store.set phone { r with attempts := 1 })
    phone code now { r with attempts := 1 } (otpStore_get_set _ _ _) hexp
    (by simp [MAX_OTP_ATTEMPTS]) hcode
  have s2 : storeAfterCalls store phone code now 2 =
      (store.set phone { r with attempts := 1 }).set phone { r with attempts := 2 } := by
    show (verifyOTP (storeAfterCalls store phone code now 1) phone code now).2 = _
    rw [s1, step1]
  have step2 := verifyOTP_mismatch_eq
    ((store.set phone { r with attempts := 1 }).set phone { r with attempts := 2 })
    phone code now { r with attempts := 2 } (otpStore_get_set _ _ _) hexp
    (by simp [MAX_OTP_ATTEMPTS]) hcode
  have s3 : storeAfterCalls store phone code now 3 =
      ((store.set phone { r with attempts := 1 }).set phone
        { r with attempts := 2 }).set phone { r with attempts := 3 } := by
    show (verifyOTP (storeAfterCalls store phone code now 2) phone code now).2 = _
    rw [s2, step2]
  have step3 := verifyOTP_exceeded_eq
    (((store.set phone { r with attempts := 1 }).set phone
      { r with attempts := 2 }).set phone { r with attempts := 3 })
    phone code now { r with attempts := 3 } (otpStore_get_set _ _ _) hexp
    (by simp [MAX_OTP_ATTEMPTS])
  refine ⟨?_, ?_, ?_, ?_, ?_⟩
  · show (verifyOTP store phone code now).1 = _
    rw [step, h0]
    simp [MAX_OTP_ATTEMPTS]
  · show (verifyOTP (storeAfterCalls store phone code now 1) phone code now).1 = _
    rw [s1, step1]
    simp [MAX_OTP_ATTEMPTS]
  · show (verifyOTP (storeAfterCalls store phone code now 2) phone code now).1 = _
    rw [s2, step2]
    simp [MAX_OTP_ATTEMPTS]
  · show (verifyOTP (storeAfterCalls store phone code now 3) phone code now).1 = _
    rw [s3, step3]
  · show (verifyOTP (storeAfterCalls store phone code now 3) phone code now).2 phone = _
    rw [s3, step3]
    exact otpStore_get_del _ phone

/-- OTP store used by the concrete claim-1 witness: one fresh record for
one phone. -/
def c1Store : OtpStore :=
  fun p => if p = "+911111111111" then some ⟨"1234", 0, 600000, 0⟩ else none

/-- Concrete instantiation of claim C1 at a fresh record. -/
theorem claim1_witness :
    verifyOTP c1Store "+911111111111" "0000" 5 =
      (.mismatch 2, c1Store.set "+911111111111" ⟨"1234", 0, 600000, 1⟩) ∧
    (verifyOTP c1Store "+911111111111" "0000" 5).2 "+911111111111" =
      some ⟨"1234", 0, 600000, 1⟩ ∧
    (0 = 0 →
      callResult c1Store "+911111111111" "0000" 5 0 = .mismatch 2 ∧
      callResult c1Store "+911111111111" "0000" 5 1 = .mismatch 1 ∧
      callResult c1Store "+911111111111" "0000" 5 2 = .mismatch 0 ∧
      callResult c1Store "+911111111111" "0000" 5 3 = .attemptsExceeded ∧
      storeAfterCalls c1Store "+911111111111" "0000" 5 4 "+911111111111" = none) :=
  claim1_verify_mismatch_counting c1Store "+911111111111" "0000" 5
    ⟨"1234", 0, 600000, 0⟩ (by decide) (by decide) (by decide) (by decide)

/-- The OTP store with no records. -/
def emptyOtpStore : OtpStore := fun _ => none

/-- The rate-limit store with no keys. -/
def emptyRateStore : RateStore := fun _ => none

/-- Claim C2: `verifyOTP` deletes the record exactly on the terminal
transitions (successful match, detected expiry, attempts at the
maximum); it returns the not-found result, leaving the store untouched,
whenever no record exists for the phone; and after a successful
verification any replay for that phone again returns not-found, because
the record is gone. -/
theorem claim2_delete_iff_terminal (store : OtpStore) (phone code : String) (now : Nat) :
    (store phone = none → verifyOTP store phone code now = (.notFound, store)) ∧
    (∀ r, store phone = some r →
      ((verifyOTP store phone code now).2 phone = none ↔
        (verifyOTP store phone code now).1 = .verified ∨
        (verifyOTP store phone code now).1 = .expired ∨
        (verifyOTP store phone code now).1 = .attemptsExceeded)) ∧
    ((verifyOTP store phone code now).1 = .verified →
      ∀ code2 now2,
        verifyOTP (verifyOTP store phone code now).2 phone code2 now2 =
          (.notFound, (verifyOTP store phone code now).2)) := by
  refine ⟨fun hnone => verifyOTP_none store phone code now hnone, ?_, ?_⟩
  · intro r hrec
    by_cases hexp : r.expiresAt < now
    · rw [verifyOTP_expired_eq store phone code now r hrec hexp]
      simp
    · by_cases hatt : MAX_OTP_ATTEMPTS ≤ r.attempts
      · rw [verifyOTP_exceeded_eq store phone code now r hrec hexp hatt]
        simp
      · by_cases hcode : r.code = code
        · rw [verifyOTP_verified_eq store phone code now r hrec hexp
            (Nat.not_le.mp hatt) hcode]
          simp
        · rw [verifyOTP_mismatch_eq store phone code now r hrec hexp
            (Nat.not_le.mp hatt) hcode]
          simp
  · intro hver code2 now2
    rcases h : store phone with _ | r
    · rw [verifyOTP_none store phone code now h] at hver
      simp at hver
    · by_cases hexp : r.expiresAt < now
      · rw [verifyOTP_expired_eq store phone code now r h hexp] at hver
        simp at hver
      · by_cases hatt : MAX_OTP_ATTEMPTS ≤ r.attempts
        · rw [verifyOTP_exceeded_eq store phone code now r h hexp hatt] at hver
          simp at hver
        · by_cases hcode : r.code = code
          · rw [verifyOTP_verified_eq store phone code now r h hexp
              (Nat.not_le.mp hatt) hcode]
            exact verifyOTP_none _ phone code2 now2 (otpStore_get_del store phone)
          · rw [verifyOTP_mismatch_eq store phone code now r h hexp
              (Nat.not_le.mp hatt) hcode] at hver
            simp at hver

/-- OTP store used by the concrete claim-2 witness. -/
def c2Store : OtpStore :=
  fun p => if p = "+912222222222" then some ⟨"4321", 0, 600000, 0⟩ else none

/-- Concrete instantiation of claim C2: not-found on an empty store, the
delete-iff-terminal equivalence on a live record, and not-found on
replay after a successful verification. -/
theorem claim2_witness :
    verifyOTP emptyOtpStore "+912222222222" "4321" 0 = (.notFound, emptyOtpStore) ∧
    ((verifyOTP c2Store "+912222222222" "4321" 0).2 "+912222222222" = none ↔
      (verifyOTP c2Store "+912222222222" "4321" 0).1 = .verified ∨
      (verifyOTP c2Store "+912222222222" "4321" 0).1 = .expired ∨
      (verifyOTP c2Store "+912222222222" "4321" 0).1 = .attemptsExceeded) ∧
    verifyOTP (verifyOTP c2Store "+912222222222" "4321" 0).2 "+912222222222" "4321" 1 =
      (.notFound, (verifyOTP c2Store "+912222222222" "4321" 0).2) :=
  ⟨(claim2_delete_iff_terminal emptyOtpStore "+912222222222" "4321" 0).1 rfl,
   (claim2_delete_iff_terminal c2Store "+912222222222" "4321" 0).2.1
     ⟨"4321", 0, 600000, 0⟩ (by decide),
   (claim2_delete_iff_terminal c2Store "+912222222222" "4321" 0).2.2 (by decide) "4321" 1⟩

/-- Claim C3: with a well-formed phone, a request finding the maximum
number (5) of in-window timestamps is rate limited, with the retry-after
seconds derived from the oldest in-window timestamp; a request finding
fewer than 5 in-window timestamps (as after enough clock advance), with
the cooldown clear, succeeds and appends its own timestamp to the pruned
sequence. -/
theorem claim3_rate_limit (ostore : OtpStore) (rstore : RateStore) (phone : String)
    (now : Nat) (otp : String) (dispatchOk : Bool)
    (hfmt : startsWithPlus91 phone = true ∧ phone.length = 13) :
    (RATE_LIMIT_MAX_REQUESTS ≤ (recentOf (rstore.getOr phone) now).length →
      (sendOTP ostore rstore phone now otp dispatchOk).result =
        .rateLimited
          ((RATE_LIMIT_WINDOW_MS - (now - listMin (recentOf (rstore.getOr phone) now)) + 999)
            / 1000)) ∧
    ((recentOf (rstore.getOr phone) now).length < RATE_LIMIT_MAX_REQUESTS →
      (checkResendCooldown ostore phone now).allowed = true →
      (sendOTP ostore rstore phone now otp true).result = .sent (OTP_EXPIRY_MS / 1000) ∧
      (sendOTP ostore rstore phone now otp true).rate phone =
        some (recentOf (rstore.getOr phone) now ++ [now])) := by
  constructor
  · intro hlen
    rw [sendOTP_rateLimited_eq ostore rstore phone now otp dispatchOk hfmt hlen]
  · intro hlen hcd
    rw [sendOTP_commit_eq ostore rstore phone now otp true hfmt hlen hcd]
    exact ⟨rfl, rateStore_get_set _ phone _⟩

/-- Rate store used by the concrete claim-3 witness: five timestamps for
one phone, all inside the window at time 100. -/
def c3Rate : RateStore :=
  fun p => if p = "+913333333333" then some [0, 1, 2, 3, 4] else none

/-- Concrete instantiation of claim C3: the sixth request at time 100 is
rate limited with retry-after 3600 seconds (window end of the oldest
timestamp 0); at time 3600001 only the timestamps 2, 3, 4 remain in the
window, so the request succeeds and appends 3600001. -/
theorem claim3_witness :
    (sendOTP emptyOtpStore c3Rate "+913333333333" 100 "9999" true).result =
      .rateLimited 3600 ∧
    ((sendOTP emptyOtpStore c3Rate "+913333333333" 3600001 "9999" true).result =
      .sent 600 ∧
     (sendOTP emptyOtpStore c3Rate "+913333333333" 3600001 "9999" true).rate
       "+913333333333" = some [2, 3, 4, 3600001]) :=
  ⟨(claim3_rate_limit emptyOtpStore c3Rate "+913333333333" 100 "9999" true
      (by decide)).1 (by decide),
   (claim3_rate_limit emptyOtpStore c3Rate "+913333333333" 3600001 "9999" true
      (by decide)).2 (by decide) (by decide)⟩

/-- Claim C4: with a stored record, a well-formed phone and the rate
limit clear, a request within 60 seconds of the record creation fails
with the cooldown result carrying the remaining seconds and leaves the
record in place; once the cooldown has elapsed the request succeeds and
overwrites the record with the fresh code and attempts 0, after which
the previous code no longer verifies. -/
theorem claim4_cooldown (ostore : OtpStore) (rstore : RateStore) (phone : String)
    (now : Nat) (otp : String) (dispatchOk : Bool) (r : OTPRecord)
    (hfmt : startsWithPlus91 phone = true ∧ phone.length = 13)
    (hrec : ostore phone = some r)
    (hlen : (recentOf (rstore.getOr phone) now).length < RATE_LIMIT_MAX_REQUESTS) :
    (now - r.createdAt < RESEND_COOLDOWN_MS →
      (sendOTP ostore rstore phone now otp dispatchOk).result =
        .cooldownActive ((RESEND_COOLDOWN_MS - (now - r.createdAt) + 999) / 1000) ∧
      (sendOTP ostore rstore phone now otp dispatchOk).otp phone = some r) ∧
    (RESEND_COOLDOWN_MS ≤ now - r.createdAt →
      (sendOTP ostore rstore phone now otp true).result = .sent (OTP_EXPIRY_MS / 1000) ∧
      (sendOTP ostore rstore phone now otp true).otp phone =
        some ⟨otp, now, now + OTP_EXPIRY_MS, 0⟩ ∧
      (r.code ≠ otp →
        (verifyOTP (sendOTP ostore rstore phone now otp true).otp phone r.code now).1 ≠
          .verified)) := by
  constructor
  · intro hcd
    rw [sendOTP_cooldown_eq ostore rstore phone now otp dispatchOk r hfmt hlen hrec hcd]
    exact ⟨rfl, hrec⟩
  · intro hcd
    have hfree := checkResendCooldown_free ostore phone now r hrec hcd
    rw [sendOTP_commit_eq ostore rstore phone now otp true hfmt hlen (by rw [hfree])]
    refine ⟨rfl, otpStore_get_set _ phone _, ?_⟩
    intro hne
    rw [verifyOTP_mismatch_eq (ostore.set phone ⟨otp, now, now + OTP_EXPIRY_MS, 0⟩)
      phone r.code now ⟨otp, now, now + OTP_EXPIRY_MS, 0⟩ (otpStore_get_set _ phone _)
      (Nat.not_lt.mpr (Nat.le_add_right now OTP_EXPIRY_MS))
      (by simp [MAX_OTP_ATTEMPTS]) (fun h => hne h.symm)]
    simp

/-- OTP store used by the concrete claim-4 witness: one record created
at time 0. -/
def c4Otp : OtpStore :=
  fun p => if p = "+914444444444" then some ⟨"1234", 0, 600000, 0⟩ else none

/-- Rate store used by the concrete claim-4 witness: one timestamp. -/
def c4Rate : RateStore :=
  fun p => if p = "+914444444444" then some [0] else none

/-- Concrete instantiation of claim C4: a resend at time 30000 is in
cooldown with 30 seconds remaining and the old record stays; a resend at
time 60000 succeeds, stores the fresh code with attempts 0, and the old
code 1234 no longer verifies. -/
theorem claim4_witness :
    ((sendOTP c4Otp c4Rate "+914444444444" 30000 "9999" true).result =
        .cooldownActive 30 ∧
      (sendOTP c4Otp c4Rate "+914444444444" 30000 "9999" true).otp "+914444444444" =
        some ⟨"1234", 0, 600000, 0⟩) ∧
    ((sendOTP c4Otp c4Rate "+914444444444" 60000 "9999" true).result = .sent 600 ∧
      (sendOTP c4Otp c4Rate "+914444444444" 60000 "9999" true).otp "+914444444444" =
        some ⟨"9999", 60000, 660000, 0⟩ ∧
      ¬(verifyOTP (sendOTP c4Otp c4Rate "+914444444444" 60000 "9999" true).otp
          "+914444444444" "1234" 60000).1 = .verified) :=
  ⟨(claim4_cooldown c4Otp c4Rate "+914444444444" 30000 "9999" true
      ⟨"1234", 0, 600000, 0⟩ (by decide) (by decide) (by decide)).1 (by decide),
   (claim4_cooldown c4Otp c4Rate "+914444444444" 60000 "9999" true
      ⟨"1234", 0, 600000, 0⟩ (by decide) (by decide) (by decide)).2 (by decide) |>.imp
        id (fun h => ⟨h.1, h.2 (by decide)⟩)⟩

/-- Claim C7: when the format, rate and cooldown gates all pass but the
external dispatch fails, `sendOTP` returns the dispatch failure while
the fresh record is already committed to the OTP store — so the
undelivered code still verifies — and the timestamp of the failed send
is already appended to the rate sequence. -/
theorem claim7_dispatch_failure (ostore : OtpStore) (rstore : RateStore)
    (phone : String) (now : Nat) (otp : String)
    (hfmt : startsWithPlus91 phone = true ∧ phone.length = 13)
    (hlen : (recentOf (rstore.getOr phone) now).length < RATE_LIMIT_MAX_REQUESTS)
    (hcd : (checkResendCooldown ostore phone now).allowed = true) :
    (sendOTP ostore rstore phone now otp false).result = .dispatchFailed ∧
    (sendOTP ostore rstore phone now otp false).otp phone =
      some ⟨otp, now, now + OTP_EXPIRY_MS, 0⟩ ∧
    (sendOTP ostore rstore phone now otp false).rate phone =
      some (recentOf (rstore.getOr phone) now ++ [now]) ∧
    (verifyOTP (sendOTP ostore rstore phone now otp false).otp phone otp now).1 =
      .verified := by
  rw [sendOTP_commit_eq ostore rstore phone now otp false hfmt hlen hcd]
  refine ⟨rfl, otpStore_get_set _ phone _, rateStore_get_set _ phone _, ?_⟩
  rw [verifyOTP_verified_eq (ostore.set phone ⟨otp, now, now + OTP_EXPIRY_MS, 0⟩)
    phone otp now ⟨otp, now, now + OTP_EXPIRY_MS, 0⟩ (otpStore_get_set _ phone _)
    (Nat.not_lt.mpr (Nat.le_add_right now OTP_EXPIRY_MS))
    (by simp [MAX_OTP_ATTEMPTS]) rfl]

/-- Concrete instantiation of claim C7 on empty stores: the failed
dispatch leaves the stored code 7777 verifiable and the timestamp 50
recorded. -/
theorem claim7_witness :
    (sendOTP emptyOtpStore emptyRateStore "+917777777777" 50 "7777" false).result =
      .dispatchFailed ∧
    (sendOTP emptyOtpStore emptyRateStore "+917777777777" 50 "7777" false).otp
      "+917777777777" = some ⟨"7777", 50, 600050, 0⟩ ∧
    (sendOTP emptyOtpStore emptyRateStore "+917777777777" 50 "7777" false).rate
      "+917777777777" = some [50] ∧
    (verifyOTP (sendOTP emptyOtpStore emptyRateStore "+917777777777" 50 "7777" false).otp
      "+917777777777" "7777" 50).1 = .verified :=
  claim7_dispatch_failure emptyOtpStore emptyRateStore "+917777777777" 50 "7777"
    (by decide) (by decide) (by decide)

/-- Claim C5: the tier table is free = (1 contact view, 2 listings) and
premium = (10, 20); when the used counter has reached the limit the
contact gate returns the limit-reached result carrying the limit and the
used counter and leaves the user unmutated; when used is below the limit
it increments the counter and returns a response whose used field is the
incremented counter and whose remaining field is the limit minus that
used field; in particular with used = limit - 1 the counter lands
exactly on the limit. -/
theorem claim5_contact_quota (u : User) :
    getAccountLimits { u with accountType := "free" } = ⟨1, 2⟩ ∧
    getAccountLimits { u with accountType := "premium" } = ⟨10, 20⟩ ∧
    ((getAccountLimits u).contactViews ≤ u.contactViewsUsed →
      contactCheckAndConsume u =
        (.limitReached (getAccountLimits u).contactViews u.contactViewsUsed, u)) ∧
    (u.contactViewsUsed < (getAccountLimits u).contactViews →
      contactCheckAndConsume u =
        (.consumed ((getAccountLimits u).contactViews - (u.contactViewsUsed + 1))
          (getAccountLimits u).contactViews (u.contactViewsUsed + 1),
         { u with contactViewsUsed := u.contactViewsUsed + 1 })) ∧
    (u.contactViewsUsed + 1 = (getAccountLimits u).contactViews →
      (contactCheckAndConsume u).2.contactViewsUsed = (getAccountLimits u).contactViews) := by
  refine ⟨by simp [getAccountLimits], by simp [getAccountLimits], ?_, ?_, ?_⟩
  · intro h
    simp only [contactCheckAndConsume]
    rw [if_pos (by omega)]
  · intro h
    simp only [contactCheckAndConsume]
    rw [if_neg (by omega)]
  · intro h
    have hlt : u.contactViewsUsed < (getAccountLimits u).contactViews := by omega
    simp only [contactCheckAndConsume]
    rw [if_neg (by omega)]
    simpa using h

/-- Concrete instantiation of claim C5 on free-tier users: at
used = limit = 1 the gate refuses and does not mutate; at
used = limit - 1 = 0 it consumes, reporting remaining 0, used 1, and
the counter lands on the limit. -/
theorem claim5_witness :
    contactCheckAndConsume ⟨"guest", "free", 1, none, 0, none⟩ =
      (.limitReached 1 1, ⟨"guest", "free", 1, none, 0, none⟩) ∧
    contactCheckAndConsume ⟨"guest", "free", 0, none, 0, none⟩ =
      (.consumed 0 1 1, ⟨"guest", "free", 1, none, 0, none⟩) ∧
    (contactCheckAndConsume ⟨"guest", "free", 0, none, 0, none⟩).2.contactViewsUsed = 1 :=
  ⟨(claim5_contact_quota ⟨"guest", "free", 1, none, 0, none⟩).2.2.1 (by decide),
   (claim5_contact_quota ⟨"guest", "free", 0, none, 0, none⟩).2.2.2.1 (by decide),
   (claim5_contact_quota ⟨"guest", "free", 0, none, 0, none⟩).2.2.2.2 (by decide)⟩

/-- Closed form of `resetMonthlyCountersIfNeeded`: each counter and
reset date depends only on its own month comparison. -/
theorem reset_components (u : User) (now : MonthDate) :
    resetMonthlyCountersIfNeeded u now =
      { u with
        contactViewsUsed :=
          if now.month ≠ (u.contactViewsResetDate.getD epochDate).month ∨
             now.year ≠ (u.contactViewsResetDate.getD epochDate).year
          then 0 else u.contactViewsUsed,
        contactViewsResetDate :=
          if now.month ≠ (u.contactViewsResetDate.getD epochDate).month ∨
             now.year ≠ (u.contactViewsResetDate.getD epochDate).year
          then some now else u.contactViewsResetDate,
        propertiesListedThisMonth :=
          if now.month ≠ (u.propertiesListedResetDate.getD epochDate).month ∨
             now.year ≠ (u.propertiesListedResetDate.getD epochDate).year
          then 0 else u.propertiesListedThisMonth,
        propertiesListedResetDate :=
          if now.month ≠ (u.propertiesListedResetDate.getD epochDate).month ∨
             now.year ≠ (u.propertiesListedResetDate.getD epochDate).year
          then some now else u.propertiesListedResetDate } := by
  unfold resetMonthlyCountersIfNeeded
  by_cases h1 : now.month ≠ (u.contactViewsResetDate.getD epochDate).month ∨
      now.year ≠ (u.contactViewsResetDate.getD epochDate).year <;>
    by_cases h2 : now.month ≠ (u.propertiesListedResetDate.getD epochDate).month ∨
        now.year ≠ (u.propertiesListedResetDate.getD epochDate).year <;>
      simp [h1, h2]

@[simp]
theorem reset_role (u : User) (now : MonthDate) :
    (resetMonthlyCountersIfNeeded u now).role = u.role := by
  rw [reset_components]

@[simp]
theorem reset_accountType (u : User) (now : MonthDate) :
    (resetMonthlyCountersIfNeeded u now).accountType = u.accountType := by
  rw [reset_components]

/-- Claim C6: `resetMonthlyCountersIfNeeded` zeroes a counter and stamps
its reset date with the current date exactly when the current
(month, year) differs from the stored reset date of that counter, the two
counters being handled independently; running it a second time at any
date in the same month and year changes nothing. -/
theorem claim6_monthly_reset (u : User) (now now2 : MonthDate) :
    ((resetMonthlyCountersIfNeeded u now).contactViewsUsed =
      if now.month ≠ (u.contactViewsResetDate.getD epochDate).month ∨
         now.year ≠ (u.contactViewsResetDate.getD epochDate).year
      then 0 else u.contactViewsUsed) ∧
    ((resetMonthlyCountersIfNeeded u now).contactViewsResetDate =
      if now.month ≠ (u.contactViewsResetDate.getD epochDate).month ∨
         now.year ≠ (u.contactViewsResetDate.getD epochDate).year
      then some now else u.contactViewsResetDate) ∧
    ((resetMonthlyCountersIfNeeded u now).propertiesListedThisMonth =
      if now.month ≠ (u.propertiesListedResetDate.getD epochDate).month ∨
         now.year ≠ (u.propertiesListedResetDate.getD epochDate).year
      then 0 else u.propertiesListedThisMonth) ∧
    ((resetMonthlyCountersIfNeeded u now).propertiesListedResetDate =
      if now.month ≠ (u.propertiesListedResetDate.getD epochDate).month ∨
         now.year ≠ (u.propertiesListedResetDate.getD epochDate).year
      then some now else u.propertiesListedResetDate) ∧
    (now2.month = now.month ∧ now2.year = now.year →
      resetMonthlyCountersIfNeeded (resetMonthlyCountersIfNeeded u now) now2 =
        resetMonthlyCountersIfNeeded u now) := by
  refine ⟨by rw [reset_components], by rw [reset_components], by rw [reset_components],
    by rw [reset_components], ?_⟩
  rintro ⟨hm, hy⟩
  rw [reset_components u now, reset_components]
  by_cases h1 : now.month ≠ (u.contactViewsResetDate.getD epochDate).month ∨
      now.year ≠ (u.contactViewsResetDate.getD epochDate).year <;>
    by_cases h2 : now.month ≠ (u.propertiesListedResetDate.getD epochDate).month ∨
        now.year ≠ (u.propertiesListedResetDate.getD epochDate).year <;>
      simp_all

/-- Concrete instantiation of claim C6: at (month 5, year 2025) with
contact reset date (4, 2025) and listing reset date (5, 2025), only the
contact counter is zeroed and only its date is stamped; a second run in
the same month is the identity on the result. -/
theorem claim6_witness :
    ((resetMonthlyCountersIfNeeded
        ⟨"guest", "free", 7, some ⟨4, 2025⟩, 9, some ⟨5, 2025⟩⟩ ⟨5, 2025⟩).contactViewsUsed =
      if (5 : Nat) ≠ 4 ∨ (2025 : Nat) ≠ 2025 then 0 else 7) ∧
    ((resetMonthlyCountersIfNeeded
        ⟨"guest", "free", 7, some ⟨4, 2025⟩, 9, some ⟨5, 2025⟩⟩ ⟨5, 2025⟩).propertiesListedThisMonth =
      if (5 : Nat) ≠ 5 ∨ (2025 : Nat) ≠ 2025 then 0 else 9) ∧
    resetMonthlyCountersIfNeeded
        (resetMonthlyCountersIfNeeded
          ⟨"guest", "free", 7, some ⟨4, 2025⟩, 9, some ⟨5, 2025⟩⟩ ⟨5, 2025⟩) ⟨5, 2025⟩ =
      resetMonthlyCountersIfNeeded
        ⟨"guest", "free", 7, some ⟨4, 2025⟩, 9, some ⟨5, 2025⟩⟩ ⟨5, 2025⟩ :=
  ⟨(claim6_monthly_reset ⟨"guest", "free", 7, some ⟨4, 2025⟩, 9, some ⟨5, 2025⟩⟩
      ⟨5, 2025⟩ ⟨5, 2025⟩).1,
   (claim6_monthly_reset ⟨"guest", "free", 7, some ⟨4, 2025⟩, 9, some ⟨5, 2025⟩⟩
      ⟨5, 2025⟩ ⟨5, 2025⟩).2.2.1,
   (claim6_monthly_reset ⟨"guest", "free", 7, some ⟨4, 2025⟩, 9, some ⟨5, 2025⟩⟩
      ⟨5, 2025⟩ ⟨5, 2025⟩).2.2.2.2 (by decide)⟩

/-- The user state right after the listing-limit gate of
`createProperty`: counters reset, then guests upgraded to host. -/
def afterUpgrade (u : User) (now : MonthDate) : User :=
  if (resetMonthlyCountersIfNeeded u now).role = "guest" then
    upgradeToHost (resetMonthlyCountersIfNeeded u now)
  else resetMonthlyCountersIfNeeded u now

theorem upgradeToHost_counters (u : User) :
    (upgradeToHost u).propertiesListedThisMonth = u.propertiesListedThisMonth := by
  unfold upgradeToHost
  by_cases h : u.role ≠ "host" <;> simp [h]

theorem afterUpgrade_counters (u : User) (now : MonthDate) :
    (afterUpgrade u now).propertiesListedThisMonth =
      (resetMonthlyCountersIfNeeded u now).propertiesListedThisMonth := by
  unfold afterUpgrade
  simp only [reset_role]
  by_cases h : u.role = "guest" <;> simp [h, upgradeToHost_counters]

theorem afterUpgrade_role (u : User) (now : MonthDate) (h : u.role = "guest") :
    (afterUpgrade u now).role = "host" := by
  unfold afterUpgrade
  rw [if_pos (by rw [reset_role, h])]
  unfold upgradeToHost
  rw [if_pos (by rw [reset_role, h]; decide)]

/-- Past the listing-limit gate, `createProperty` either creates the
document (with `createOk`) and increments the counter of the upgraded
user, or exits early leaving the upgraded user as is. -/
theorem createProperty_branches (u : User) (now : MonthDate) (req : CreateRequest)
    (createOk : Bool)
    (hq : (resetMonthlyCountersIfNeeded u now).propertiesListedThisMonth <
      (getAccountLimits (resetMonthlyCountersIfNeeded u now)).propertyListings) :
    (createOk = true ∧ createProperty u now req createOk =
      (.created, { afterUpgrade u now with propertiesListedThisMonth :=
        (afterUpgrade u now).propertiesListedThisMonth + 1 })) ∨
    ((createProperty u now req createOk).1 ≠ .created ∧
      (createProperty u now req createOk).2 = afterUpgrade u now) := by
  simp only [createProperty, afterUpgrade]
  rw [if_neg (Nat.not_le.mpr hq)]
  rcases req with ⟨rt, ra, co⟩
  rcases rt with _ | rt
  · right; simp
  · dsimp only
    split
    · right; simp
    · rcases ra with _ | ra
      · right; simp
      · dsimp only
        split
        · right; simp
        · rcases co with _ | ⟨la, lo⟩
          · right; simp
          · dsimp only
            split
            · right; simp
            · split
              · right; simp
              · split
                · right; simp
                · cases createOk
                  · right; simp
                  · left; exact ⟨rfl, rfl⟩

/-- Claim C10: past the quota gate, the monthly listing counter is
incremented exactly when the property document is created successfully,
so every validation failure leaves the counter at its post-reset value;
and a guest caller is upgraded to host before the validations, a change
that persists even when the request then fails. -/
theorem claim10_create_property (u : User) (now : MonthDate) (req : CreateRequest)
    (createOk : Bool)
    (hq : (resetMonthlyCountersIfNeeded u now).propertiesListedThisMonth <
      (getAccountLimits (resetMonthlyCountersIfNeeded u now)).propertyListings) :
    ((createProperty u now req createOk).1 = .created →
      createOk = true ∧
      (createProperty u now req createOk).2.propertiesListedThisMonth =
        (resetMonthlyCountersIfNeeded u now).propertiesListedThisMonth + 1) ∧
    ((createProperty u now req createOk).1 ≠ .created →
      (createProperty u now req createOk).2.propertiesListedThisMonth =
        (resetMonthlyCountersIfNeeded u now).propertiesListedThisMonth) ∧
    (u.role = "guest" → (createProperty u now req createOk).2.role = "host") := by
  rcases createProperty_branches u now req createOk hq with ⟨hok, heq⟩ | ⟨hne, heq⟩
  · refine ⟨fun _ => ⟨hok, ?_⟩, fun hne => absurd (by rw [heq]) hne, fun hrole => ?_⟩
    · rw [heq]
      simp [afterUpgrade_counters]
    · rw [heq]
      show (afterUpgrade u now).role = "host"
      exact afterUpgrade_role u now hrole
  · refine ⟨fun hcr => absurd hcr hne, fun _ => ?_, fun hrole => ?_⟩
    · rw [heq, afterUpgrade_counters]
    · rw [heq]
      exact afterUpgrade_role u now hrole

/-- Concrete instantiation of claim C10: a guest free-tier user under
the listing limit sending an invalid rent amount gets a validation
failure, the counter stays 0, yet the role has moved to host; the same
request with amount 600 is created and the counter becomes 1. -/
theorem claim10_witness :
    ((createProperty ⟨"guest", "free", 0, some ⟨5, 2025⟩, 0, some ⟨5, 2025⟩⟩ ⟨5, 2025⟩
        ⟨some "per_person", some 100, some (10, 20)⟩ true).1 ≠ .created →
      (createProperty ⟨"guest", "free", 0, some ⟨5, 2025⟩, 0, some ⟨5, 2025⟩⟩ ⟨5, 2025⟩
        ⟨some "per_person", some 100, some (10, 20)⟩ true).2.propertiesListedThisMonth =
        (resetMonthlyCountersIfNeeded ⟨"guest", "free", 0, some ⟨5, 2025⟩, 0, some ⟨5, 2025⟩⟩
          ⟨5, 2025⟩).propertiesListedThisMonth) ∧
    (createProperty ⟨"guest", "free", 0, some ⟨5, 2025⟩, 0, some ⟨5, 2025⟩⟩ ⟨5, 2025⟩
        ⟨some "per_person", some 100, some (10, 20)⟩ true).2.role = "host" ∧
    ((createProperty ⟨"guest", "free", 0, some ⟨5, 2025⟩, 0, some ⟨5, 2025⟩⟩ ⟨5, 2025⟩
        ⟨some "per_person", some 600, some (10, 20)⟩ true).1 = .created →
      true = true ∧
      (createProperty ⟨"guest", "free", 0, some ⟨5, 2025⟩, 0, some ⟨5, 2025⟩⟩ ⟨5, 2025⟩
        ⟨some "per_person", some 600, some (10, 20)⟩ true).2.propertiesListedThisMonth =
        (resetMonthlyCountersIfNeeded ⟨"guest", "free", 0, some ⟨5, 2025⟩, 0, some ⟨5, 2025⟩⟩
          ⟨5, 2025⟩).propertiesListedThisMonth + 1) :=
  ⟨(claim10_create_property ⟨"guest", "free", 0, some ⟨5, 2025⟩, 0, some ⟨5, 2025⟩⟩ ⟨5, 2025⟩
      ⟨some "per_person", some 100, some (10, 20)⟩ true (by decide)).2.1,
   (claim10_create_property ⟨"guest", "free", 0, some ⟨5, 2025⟩, 0, some ⟨5, 2025⟩⟩ ⟨5, 2025⟩
      ⟨some "per_person", some 100, some (10, 20)⟩ true (by decide)).2.2 rfl,
   (claim10_create_property ⟨"guest", "free", 0, some ⟨5, 2025⟩, 0, some ⟨5, 2025⟩⟩ ⟨5, 2025⟩
      ⟨some "per_person", some 600, some (10, 20)⟩ true (by decide)).1⟩

/-- Rate store used by the claim-8 counterexample: one timestamp that is
stale once the clock reaches the window size. -/
def c8Rate : RateStore := fun p => if p = "+918888888888" then some [0] else none

/-- Claim C8 as stated is false at a concrete input: a rate-limit check
whose pruning leaves the sequence empty keeps the key bound, to the
empty sequence, instead of removing it from the store. -/
theorem claim8_counterexample :
    (checkRateLimit c8Rate "+918888888888" RATE_LIMIT_WINDOW_MS).store "+918888888888" =
      some [] ∧
    ¬(checkRateLimit c8Rate "+918888888888" RATE_LIMIT_WINDOW_MS).store "+918888888888" =
      none := by
  decide

/-- Claim C8 amended: after every rate-limit check the checked phone is
bound to its pruned sequence — stale entries are gone, but an empty
pruned sequence stays bound rather than being removed; it is the
periodic cleanup that removes a key exactly when its pruned sequence is
empty, and otherwise binds it to the pruned sequence. -/
theorem claim8_prune_amended (rstore : RateStore) (phone : String) (now : Nat) :
    (checkRateLimit rstore phone now).store phone =
      some (recentOf (rstore.getOr phone) now) ∧
    (∀ ts, rstore phone = some ts →
      (cleanupRateStore rstore now phone = none ↔ recentOf ts now = [])) ∧
    (∀ ts, rstore phone = some ts → recentOf ts now ≠ [] →
      cleanupRateStore rstore now phone = some (recentOf ts now)) := by
  refine ⟨?_, ?_, ?_⟩
  · by_cases h : RATE_LIMIT_MAX_REQUESTS ≤ (recentOf (rstore.getOr phone) now).length
    · rw [checkRateLimit_blocked rstore phone now h]
      exact rateStore_get_set rstore phone _
    · rw [checkRateLimit_allowed rstore phone now (Nat.not_le.mp h)]
      exact rateStore_get_set rstore phone _
  · intro ts hts
    unfold cleanupRateStore
    rw [hts]
    by_cases h : recentOf ts now = [] <;> simp [h]
  · intro ts hts h
    unfold cleanupRateStore
    rw [hts]
    simp [h]

/-- Concrete instantiation of the amended claim C8: the check at the
window boundary binds the phone to the emptied sequence, the cleanup
removes the same key, and on a list with one fresh timestamp the cleanup
keeps the pruned list. -/
theorem claim8_witness :
    (checkRateLimit c8Rate "+918888888888" 100).store "+918888888888" = some [0] ∧
    (cleanupRateStore c8Rate RATE_LIMIT_WINDOW_MS "+918888888888" = none ↔
      recentOf [0] RATE_LIMIT_WINDOW_MS = []) ∧
    cleanupRateStore c8Rate 100 "+918888888888" = some [0] :=
  ⟨by
    have h := (claim8_prune_amended c8Rate "+918888888888" 100).1
    rwa [show recentOf (c8Rate.getOr "+918888888888") 100 = [0] from rfl] at h,
   (claim8_prune_amended c8Rate "+918888888888" RATE_LIMIT_WINDOW_MS).2.1 [0] (by decide),
   by
    have h := (claim8_prune_amended c8Rate "+918888888888" 100).2.2 [0] (by decide)
      (by decide)
    rwa [show recentOf [0] 100 = [0] from rfl] at h⟩

/-- Past a well-formed format gate, `sendOTP` never returns the
invalid-format result: every later exit is rate-limited, cooldown,
sent or dispatch-failed. -/
theorem sendOTP_result_ne_invalid (ostore : OtpStore) (rstore : RateStore)
    (phone : String) (now : Nat) (otp : String) (dispatchOk : Bool)
    (hc : ¬(startsWithPlus91 phone = false ∨ phone.length ≠ 13)) :
    (sendOTP ostore rstore phone now otp dispatchOk).result ≠ .invalidFormat := by
  simp only [sendOTP]
  rw [if_neg hc]
  split
  · simp
  · split
    · simp
    · split <;> simp

/-- Claim C9 as stated is false at a concrete input: the string
+91abcdefghij is not +91 followed by 10 digits, yet `sendOTP` does not
return the invalid-format result for it — on empty stores it reports a
successful send. -/
theorem claim9_counterexample :
    specPhoneFormat "+91abcdefghij" = false ∧
    (sendOTP emptyOtpStore emptyRateStore "+91abcdefghij" 0 "1234" true).result =
      .sent 600 := by
  decide

/-- Claim C9 amended: `sendOTP` returns the invalid-format result
exactly when the phone does not start with +91 or has length other than
13 — the 10 characters after the prefix are not required to be digits —
and consequently every phone in the spec format (+91 followed by 10
digits) proceeds past format validation. -/
theorem claim9_format_amended (ostore : OtpStore) (rstore : RateStore)
    (phone : String) (now : Nat) (otp : String) (dispatchOk : Bool) :
    ((sendOTP ostore rstore phone now otp dispatchOk).result = .invalidFormat ↔
      (startsWithPlus91 phone = false ∨ phone.length ≠ 13)) ∧
    (specPhoneFormat phone = true →
      (sendOTP ostore rstore phone now otp dispatchOk).result ≠ .invalidFormat) := by
  constructor
  · constructor
    · intro h
      by_contra hc
      exact sendOTP_result_ne_invalid ostore rstore phone now otp dispatchOk hc h
    · intro h
      rw [sendOTP_invalidFormat_eq ostore rstore phone now otp dispatchOk h]
  · intro h
    have hc : ¬(startsWithPlus91 phone = false ∨ phone.length ≠ 13) := by
      simp only [specPhoneFormat, Bool.and_eq_true] at h
      simp [h.1.1, of_decide_eq_true h.1.2]
    exact sendOTP_result_ne_invalid ostore rstore phone now otp dispatchOk hc

/-- Concrete instantiation of the amended claim C9: a short string is
rejected as invalid format, and a well-formed +91 phone with 10 digits
is not. -/
theorem claim9_witness :
    (sendOTP emptyOtpStore emptyRateStore "12345" 0 "1111" true).result =
      .invalidFormat ∧
    ¬(sendOTP emptyOtpStore emptyRateStore "+911234567890" 0 "1111" true).result =
      .invalidFormat :=
  ⟨(claim9_format_amended emptyOtpStore emptyRateStore "12345" 0 "1111" true).1.mpr
      (by decide),
   (claim9_format_amended emptyOtpStore emptyRateStore "+911234567890" 0 "1111"
      true).2 (by decide)⟩

end UrbanBackend
